import Mathlib

/-!
Verification of the address-form server (shared/schema.ts, server/routes.ts,
server/storage.ts) against its specification.

The embedding models:
- the zod validation schema `insertAddressSchema` (field checks, all issues
  collected per field, object-level aggregation in shape key order);
- the in-memory store `MemStorage` (a JS `Map`, modelled as an association
  list with insertion-order semantics: `set` on a fresh key appends, on an
  existing key updates in place);
- the four HTTP handlers of `registerRoutes` as pure functions of the
  request data, the configured API key and the (modelled) upstream response.
-/

namespace FormSpec

/-! ### Data model (shared/schema.ts) -/

/-- The validated submission shape, `InsertAddress = z.infer insertAddressSchema`. -/
structure InsertAddress where
  streetAddress : String
  city : String
  state : String
  zipCode : String
  country : String
  apartment : Option String
  addressType : String
deriving DecidableEq, Repr

/-- A stored address row (`Address`), as produced by `MemStorage.createAddress`. -/
structure Address where
  id : Nat
  streetAddress : String
  city : String
  state : String
  zipCode : String
  country : String
  apartment : Option String
  addressType : String
  userId : Option Nat
deriving DecidableEq, Repr

/-- A raw submission body as it reaches `insertAddressSchema.parse`: each
field either absent (`none`) or a string. -/
structure RawSubmission where
  streetAddress : Option String
  city : Option String
  state : Option String
  zipCode : Option String
  country : Option String
  apartment : Option String
  addressType : Option String
deriving DecidableEq, Repr

/-- One zod issue, reduced to its path head and message. -/
structure Violation where
  field : String
  message : String
deriving DecidableEq, Repr

/-! ### Validation layer (`insertAddressSchema`) -/

/-- Check for `z.string().min(1, msg)`: absent input is an invalid-type
(`Required`) issue; a present string fails only when its length is below 1. -/
def checkRequiredMin1 (fieldName msg : String) : Option String → List Violation
  | none => [⟨fieldName, "Required"⟩]
  | some s => if s.length < 1 then [⟨fieldName, msg⟩] else []

/-- The ZIP pattern of the schema, a JS regex over the string: five ASCII
digits optionally followed by a hyphen and four more digits. -/
def zipPatternMatch (s : String) : Bool :=
  let cs := s.toList
  (cs.length == 5 && cs.all Char.isDigit) ||
    (cs.length == 10 && (cs.take 5).all Char.isDigit &&
      ((cs.drop 5).head? == some '-') && (cs.drop 6).all Char.isDigit)

/-- `zipCode: z.string().min(1, ...).regex(..., ...)`: both checks run and
both issues are collected when both fail. -/
def checkZipCode : Option String → List Violation
  | none => [⟨"zipCode", "Required"⟩]
  | some s =>
      (if s.length < 1 then [⟨"zipCode", "ZIP code is required"⟩] else []) ++
        (if zipPatternMatch s then [] else [⟨"zipCode", "Please enter a valid ZIP code"⟩])

def checkStreetAddress (v : Option String) : List Violation :=
  checkRequiredMin1 "streetAddress" "Street address is required" v

def checkCity (v : Option String) : List Violation :=
  checkRequiredMin1 "city" "City is required" v

def checkState (v : Option String) : List Violation :=
  checkRequiredMin1 "state" "State is required" v

def checkCountry (v : Option String) : List Violation :=
  checkRequiredMin1 "country" "Country is required" v

/-- `apartment: z.string().optional()`: absent or any string is accepted. -/
def checkApartment (_ : Option String) : List Violation := []

def addressTypeValues : List String := ["home", "work", "other"]

/-- `addressType: z.enum(["home","work","other"]).default("home")`: absent
input takes the default before the enum check; a present string outside the
set is an invalid-enum-value issue. -/
def checkAddressType : Option String → List Violation
  | none => []
  | some s =>
      if addressTypeValues.contains s then []
      else [⟨"addressType", "Invalid enum value"⟩]

/-- All issues of a parse, in the schema shape key order; the object schema
evaluates every field and aggregates (no short-circuit across fields). -/
def allFieldViolations (raw : RawSubmission) : List Violation :=
  checkStreetAddress raw.streetAddress ++ checkCity raw.city ++
    checkState raw.state ++ checkZipCode raw.zipCode ++
    checkCountry raw.country ++ checkApartment raw.apartment ++
    checkAddressType raw.addressType

/-- The normalized record a successful parse returns: present values carried
through, the `addressType` default applied on absence. -/
def normalizeAddress (raw : RawSubmission) : InsertAddress :=
  { streetAddress := raw.streetAddress.getD ""
    city := raw.city.getD ""
    state := raw.state.getD ""
    zipCode := raw.zipCode.getD ""
    country := raw.country.getD ""
    apartment := raw.apartment
    addressType := raw.addressType.getD "home" }

/-- `insertAddressSchema.parse`: the normalized record when no field issued,
otherwise a `ZodError` carrying every collected issue. -/
def validateAddress (raw : RawSubmission) : Except (List Violation) InsertAddress :=
  match allFieldViolations raw with
  | [] => Except.ok (normalizeAddress raw)
  | vs => Except.error vs

/-! ### Record store (server/storage.ts, `MemStorage`) -/

/-- A JS `Map` of addresses keyed by id, as an insertion-ordered association
list. -/
abbrev AddrMap := List (Nat × Address)

/-- `Map.get`. -/
def mapGet : AddrMap → Nat → Option Address
  | [], _ => none
  | p :: t, k => if p.1 = k then some p.2 else mapGet t k

/-- `Map.set`: an existing key is updated in place keeping its position, a
fresh key is appended at the end (JS `Map` insertion-order semantics). -/
def mapSet : AddrMap → Nat → Address → AddrMap
  | [], k, v => [(k, v)]
  | p :: t, k, v => if p.1 = k then (k, v) :: t else p :: mapSet t k v

/-- The in-memory store: the addresses map and the id counter. (The user
map and its counter play no part in the claims and are omitted.) -/
structure MemStorage where
  addresses : AddrMap
  currentAddressId : Nat
deriving DecidableEq, Repr

/-- A freshly constructed `MemStorage`: empty map, counter at 1. -/
def MemStorage.fresh : MemStorage := ⟨[], 1⟩

/-- The spread `{ ...insertAddress, id, userId: null }`. -/
def mkStoredAddress (id : Nat) (a : InsertAddress) : Address :=
  { id := id
    streetAddress := a.streetAddress
    city := a.city
    state := a.state
    zipCode := a.zipCode
    country := a.country
    apartment := a.apartment
    addressType := a.addressType
    userId := none }

/-- `MemStorage.createAddress`: take the current id, bump the counter, build
the row with `userId: null`, store it, return it. -/
def MemStorage.createAddress (s : MemStorage) (a : InsertAddress) :
    Address × MemStorage :=
  let id := s.currentAddressId
  let addr := mkStoredAddress id a
  (addr, ⟨mapSet s.addresses id addr, id + 1⟩)

/-- `MemStorage.getAddresses`: `Array.from(this.addresses.values())`. -/
def MemStorage.getAddresses (s : MemStorage) : List Address :=
  s.addresses.map Prod.snd

/-- `MemStorage.getAddressById`: `this.addresses.get(id)`. -/
def MemStorage.getAddressById (s : MemStorage) (id : Nat) : Option Address :=
  mapGet s.addresses id

/-! ### Submission endpoint (POST /api/addresses) -/

/-- The endpoint outcome: 201 with the stored row, or 400 with the
`ZodError` issue list. -/
inductive SubmitResult where
  | created (addr : Address)
  | validationError (details : List Violation)
deriving DecidableEq, Repr

/-- The handler: `insertAddressSchema.parse(req.body)` then
`storage.createAddress(validatedData)`; a `ZodError` short-circuits to the
400 response before the store is touched. -/
def postAddress (s : MemStorage) (raw : RawSubmission) :
    SubmitResult × MemStorage :=
  match validateAddress raw with
  | Except.ok a =>
      let r := s.createAddress a
      (SubmitResult.created r.1, r.2)
  | Except.error vs => (SubmitResult.validationError vs, s)

/-! ### Suggestion proxy (GET /api/places/suggestions) -/

/-- The `input` query parameter as express delivers it: absent, a single
string, or something else (e.g. a repeated parameter parsed as an array). -/
inductive QueryVal where
  | missing
  | str (s : String)
  | nonStr
deriving DecidableEq, Repr

/-- One raw prediction from the provider; `mainText` and `secondaryText`
model `structured_formatting?.main_text` and `...?.secondary_text`, absent
when the optional chain yields undefined. -/
structure RawPrediction where
  placeId : String
  description : String
  mainText : Option String
  secondaryText : Option String
deriving DecidableEq, Repr

/-- The normalized suggestion shape (`PlacesSuggestion`). -/
structure PlacesSuggestion where
  placeId : String
  description : String
  mainText : String
  secondaryText : String
deriving DecidableEq, Repr

/-- The upstream autocomplete response: transport `ok`, provider `status`,
and `data.predictions` (absent models an undefined field). -/
structure AutocompleteResponse where
  ok : Bool
  status : String
  predictions : Option (List RawPrediction)
deriving DecidableEq, Repr

/-- JS `a || b` on a possibly-undefined string: undefined or empty falls
back to the default. -/
def jsOrElse (o : Option String) (d : String) : String :=
  match o with
  | none => d
  | some t => if t = "" then d else t

/-- The per-prediction mapping of the suggestions handler. -/
def toSuggestion (p : RawPrediction) : PlacesSuggestion :=
  { placeId := p.placeId
    description := p.description
    mainText := jsOrElse p.mainText p.description
    secondaryText := jsOrElse p.secondaryText "" }

/-- Suggestion endpoint outcome: 200 with predictions, 503 (no key), or 500
(upstream failure, via the catch block). -/
inductive SuggestionsResult where
  | success (predictions : List PlacesSuggestion)
  | serviceUnavailable
  | upstreamFailure
deriving DecidableEq, Repr

/-- The suggestions handler as a function of the query value, the configured
key (`""` when unset) and the upstream response; the second component
records whether the outbound `fetch` happened. -/
def suggestionsHandler (input : QueryVal) (apiKey : String)
    (resp : AutocompleteResponse) : SuggestionsResult × Bool :=
  match input with
  | QueryVal.missing => (SuggestionsResult.success [], false)
  | QueryVal.nonStr => (SuggestionsResult.success [], false)
  | QueryVal.str s =>
      if s = "" then (SuggestionsResult.success [], false)
      else if s.length < 3 then (SuggestionsResult.success [], false)
      else if apiKey = "" then (SuggestionsResult.serviceUnavailable, false)
      else if resp.ok = false then (SuggestionsResult.upstreamFailure, true)
      else if resp.status ≠ "OK" ∧ resp.status ≠ "ZERO_RESULTS" then
        (SuggestionsResult.upstreamFailure, true)
      else
        (SuggestionsResult.success ((resp.predictions.getD []).map toSuggestion), true)

/-! ### Detail resolution proxy (GET /api/places/details/:placeId) -/

/-- One provider address component. -/
structure AddressComponent where
  types : List String
  longName : String
  shortName : String
deriving DecidableEq, Repr

/-- The normalized detail shape (`PlacesDetails`), all fields optional. -/
structure PlacesDetails where
  streetNumber : Option String := none
  route : Option String := none
  locality : Option String := none
  administrativeAreaLevel1 : Option String := none
  postalCode : Option String := none
  country : Option String := none
deriving DecidableEq, Repr

/-- The upstream details response: transport `ok`, provider `status`, and
`data.result?.address_components` (absent models an undefined chain). -/
structure DetailsResponse where
  ok : Bool
  status : String
  addressComponents : Option (List AddressComponent)
deriving DecidableEq, Repr

/-- The forEach body: the if/else-if chain on the component type tags; a
later matching component overwrites the field (last one wins). -/
def applyComponent (d : PlacesDetails) (c : AddressComponent) : PlacesDetails :=
  if c.types.contains "street_number" then { d with streetNumber := some c.longName }
  else if c.types.contains "route" then { d with route := some c.longName }
  else if c.types.contains "locality" then { d with locality := some c.longName }
  else if c.types.contains "administrative_area_level_1" then
    { d with administrativeAreaLevel1 := some c.shortName }
  else if c.types.contains "postal_code" then { d with postalCode := some c.longName }
  else if c.types.contains "country" then { d with country := some c.shortName }
  else d

/-- Details endpoint outcome: 200 with the detail fields, 503 (no key), or
500 (upstream failure, via the catch block). -/
inductive DetailsResult where
  | success (d : PlacesDetails)
  | serviceUnavailable
  | upstreamFailure
deriving DecidableEq, Repr

/-- The details handler; the second component records whether the outbound
`fetch` happened. Unlike the suggestions handler, the status check accepts
only `"OK"`. -/
def detailsHandler (_placeId : String) (apiKey : String)
    (resp : DetailsResponse) : DetailsResult × Bool :=
  if apiKey = "" then (DetailsResult.serviceUnavailable, false)
  else if resp.ok = false then (DetailsResult.upstreamFailure, true)
  else if resp.status ≠ "OK" then (DetailsResult.upstreamFailure, true)
  else
    (DetailsResult.success ((resp.addressComponents.getD []).foldl applyComponent {}), true)

/-! ### Derived operations and concrete fixtures used by the theorems -/

/-- Run a sequence of `createAddress` calls against a store. -/
def createMany (s : MemStorage) (as : List InsertAddress) : MemStorage :=
  as.foldl (fun st a => (st.createAddress a).2) s

/-- The rows a sequence of creations is expected to produce: one row per
input, in input order, with ids counting up from `c`. -/
def expectedAddresses : Nat → List InsertAddress → List Address
  | _, [] => []
  | c, a :: as => mkStoredAddress c a :: expectedAddresses (c + 1) as

/-- The valid example submission of the spec. -/
def exGoodRaw : RawSubmission :=
  ⟨some "1 Main St", some "Springfield", some "IL", some "62704", some "US",
    none, some "work"⟩

/-- The record `exGoodRaw` validates to. -/
def exGoodInsert : InsertAddress :=
  ⟨"1 Main St", "Springfield", "IL", "62704", "US", none, "work"⟩

/-- The invalid example submission of the spec: empty street, bad ZIP. -/
def exBadRaw : RawSubmission :=
  ⟨some "", some "X", some "Y", some "bad", some "US", none, none⟩

/-- A submission with the country field omitted and every other field valid. -/
def exNoCountryRaw : RawSubmission :=
  ⟨some "1 Main St", some "Springfield", some "IL", some "62704", none,
    none, none⟩

/-- A valid submission with the addressType field omitted. -/
def exNoTypeRaw : RawSubmission :=
  ⟨some "1 Main St", some "Springfield", some "IL", some "62704", some "US",
    none, none⟩

/-- A submission whose addressType is outside the allowed set. -/
def exBadTypeRaw : RawSubmission :=
  ⟨some "1 Main St", some "Springfield", some "IL", some "62704", some "US",
    none, some "penthouse"⟩

/-- A submission whose required text fields are whitespace-only. -/
def exWhitespaceRaw : RawSubmission :=
  ⟨some " ", some " ", some " ", some "62704", some " ", none, none⟩

/-- A benign upstream autocomplete response. -/
def exAutoResp : AutocompleteResponse := ⟨true, "OK", some []⟩

/-- An upstream details response with a failed transport. -/
def exBadDetResp : DetailsResponse := ⟨false, "OK", none⟩

/-! ### Shared lemmas -/

/-- Looking up a key just written returns the written value. -/
theorem mapGet_mapSet_self (m : AddrMap) (k : Nat) (v : Address) :
    mapGet (mapSet m k v) k = some v := by
  induction m with
  | nil => simp [mapGet, mapSet]
  | cons p t ih =>
    by_cases h : p.1 = k <;> simp [mapGet, mapSet, h, ih]

/-- Writing a key absent from the map appends the entry. -/
theorem mapSet_fresh (m : AddrMap) (k : Nat) (v : Address)
    (h : ∀ p ∈ m, p.1 ≠ k) : mapSet m k v = m ++ [(k, v)] := by
  induction m with
  | nil => rfl
  | cons p t ih =>
    have hp : p.1 ≠ k := h p (List.mem_cons_self p t)
    simp only [mapSet, if_neg hp, List.cons_append, List.cons.injEq, true_and]
    exact ih fun q hq => h q (List.mem_cons_of_mem p hq)

/-- A parse with a nonempty issue list is the error result carrying exactly
that list. -/
theorem validateAddress_error (raw : RawSubmission)
    (h : allFieldViolations raw ≠ []) :
    validateAddress raw = Except.error (allFieldViolations raw) := by
  unfold validateAddress
  cases hv : allFieldViolations raw with
  | nil => exact absurd hv h
  | cons v t => rfl

/-- A parse with no issues returns the normalized record. -/
theorem validateAddress_ok (raw : RawSubmission)
    (h : allFieldViolations raw = []) :
    validateAddress raw = Except.ok (normalizeAddress raw) := by
  unfold validateAddress
  rw [h]

/-- A string of length zero is the empty string. -/
theorem string_length_eq_zero_iff (s : String) : s.length = 0 ↔ s = "" := by
  obtain ⟨data⟩ := s
  constructor
  · intro h
    have hd : data = [] := by
      cases data with
      | nil => rfl
      | cons c t => simp [String.length] at h
    subst hd
    rfl
  · intro h
    rw [h]
    rfl

/-! ### Claims -/

/-- C1: for every submission that passes validation, `createAddress` on the
store followed by `getAddressById` with the assigned id returns a record
equal to the validated input plus the assigned id and an absent (null)
userId. -/
theorem claim_c1 (store : MemStorage) (raw : RawSubmission) (a : InsertAddress)
    (_h : validateAddress raw = Except.ok a) :
    (store.createAddress a).2.getAddressById (store.createAddress a).1.id
        = some (store.createAddress a).1 ∧
    (store.createAddress a).1.streetAddress = a.streetAddress ∧
    (store.createAddress a).1.city = a.city ∧
    (store.createAddress a).1.state = a.state ∧
    (store.createAddress a).1.zipCode = a.zipCode ∧
    (store.createAddress a).1.country = a.country ∧
    (store.createAddress a).1.apartment = a.apartment ∧
    (store.createAddress a).1.addressType = a.addressType ∧
    (store.createAddress a).1.userId = none := by
  refine ⟨?_, rfl, rfl, rfl, rfl, rfl, rfl, rfl, rfl⟩
  have hid : (mkStoredAddress store.currentAddressId a).id = store.currentAddressId := rfl
  simp [MemStorage.createAddress, MemStorage.getAddressById, hid, mapGet_mapSet_self]

/-- Witness for C1 at the valid example submission of the spec. -/
theorem claim_c1_witness :
    validateAddress exGoodRaw = Except.ok exGoodInsert ∧
    ((MemStorage.fresh.createAddress exGoodInsert).2.getAddressById
        (MemStorage.fresh.createAddress exGoodInsert).1.id
          = some (MemStorage.fresh.createAddress exGoodInsert).1 ∧
      (MemStorage.fresh.createAddress exGoodInsert).1.streetAddress = exGoodInsert.streetAddress ∧
      (MemStorage.fresh.createAddress exGoodInsert).1.city = exGoodInsert.city ∧
      (MemStorage.fresh.createAddress exGoodInsert).1.state = exGoodInsert.state ∧
      (MemStorage.fresh.createAddress exGoodInsert).1.zipCode = exGoodInsert.zipCode ∧
      (MemStorage.fresh.createAddress exGoodInsert).1.country = exGoodInsert.country ∧
      (MemStorage.fresh.createAddress exGoodInsert).1.apartment = exGoodInsert.apartment ∧
      (MemStorage.fresh.createAddress exGoodInsert).1.addressType = exGoodInsert.addressType ∧
      (MemStorage.fresh.createAddress exGoodInsert).1.userId = none) :=
  ⟨rfl, claim_c1 MemStorage.fresh exGoodRaw exGoodInsert rfl⟩

/-- C2: for every submission body that violates at least one validation
rule, the submission endpoint reports the full list of collected field-level
violations (all rules evaluated, no short-circuit) and returns the store
unchanged, the store never being called. -/
theorem claim_c2 (store : MemStorage) (raw : RawSubmission)
    (h : allFieldViolations raw ≠ []) :
    postAddress store raw
      = (SubmitResult.validationError (allFieldViolations raw), store) := by
  unfold postAddress
  rw [validateAddress_error raw h]

/-- Witness for C2 at the invalid example submission of the spec, whose
violation list carries both the streetAddress and the zipCode issue. -/
theorem claim_c2_witness :
    allFieldViolations exBadRaw ≠ [] ∧
    postAddress MemStorage.fresh exBadRaw
      = (SubmitResult.validationError (allFieldViolations exBadRaw), MemStorage.fresh) :=
  ⟨by decide, claim_c2 MemStorage.fresh exBadRaw (by decide)⟩

/-- A string matching the ZIP pattern is nonempty. -/
theorem zipPatternMatch_pos (s : String) (h : zipPatternMatch s = true) :
    1 ≤ s.length := by
  have hlen : s.length = s.toList.length := rfl
  simp only [zipPatternMatch, Bool.or_eq_true, Bool.and_eq_true, beq_iff_eq] at h
  rcases h with ⟨h5, _⟩ | ⟨⟨⟨h10, _⟩, _⟩, _⟩ <;> omega

/-- C3: every zipCode string outside the pattern `\d{5}(-\d{4})?` makes
validation reject the submission with a zipCode violation, and every string
matching the pattern is accepted by the zipCode rule. -/
theorem claim_c3 (raw : RawSubmission) (s : String) (h : raw.zipCode = some s) :
    (zipPatternMatch s = false →
        (Violation.mk "zipCode" "Please enter a valid ZIP code") ∈ allFieldViolations raw ∧
        validateAddress raw = Except.error (allFieldViolations raw)) ∧
    (zipPatternMatch s = true → checkZipCode raw.zipCode = []) := by
  constructor
  · intro hm
    have hmem : (Violation.mk "zipCode" "Please enter a valid ZIP code")
        ∈ allFieldViolations raw := by
      simp [allFieldViolations, checkZipCode, h, hm]
    exact ⟨hmem, validateAddress_error raw (List.ne_nil_of_mem hmem)⟩
  · intro hm
    have hp := zipPatternMatch_pos s hm
    rw [h]
    simp [checkZipCode, hm, Nat.not_lt.mpr hp]

/-- Witness for C3 at the zipCode `"bad"` of the spec example. -/
theorem claim_c3_witness :
    exBadRaw.zipCode = some "bad" ∧ zipPatternMatch "bad" = false ∧
    ((Violation.mk "zipCode" "Please enter a valid ZIP code") ∈ allFieldViolations exBadRaw ∧
      validateAddress exBadRaw = Except.error (allFieldViolations exBadRaw)) :=
  ⟨rfl, by decide, (claim_c3 exBadRaw "bad" rfl).1 (by decide)⟩

/-- C4 counterexample: a submission omitting only the country field does not
validate to a record with country `"US"`; the schema field
`country: z.string().min(1)` carries no default, so the parse errors with a
required-country issue. -/
theorem claim_c4_counterexample :
    validateAddress exNoCountryRaw
      = Except.error [Violation.mk "country" "Required"] := rfl

/-- C4 amended: for every submission with the country field omitted,
validation fails with a violation for country; the `"US"` default exists
only on the database column, not in the validation schema. -/
theorem claim_c4_amended (raw : RawSubmission) (h : raw.country = none) :
    (Violation.mk "country" "Required") ∈ allFieldViolations raw ∧
    validateAddress raw = Except.error (allFieldViolations raw) := by
  have hmem : (Violation.mk "country" "Required") ∈ allFieldViolations raw := by
    simp [allFieldViolations, checkCountry, checkRequiredMin1, h]
  exact ⟨hmem, validateAddress_error raw (List.ne_nil_of_mem hmem)⟩

/-- Witness for the amended C4 at a concrete country-less submission. -/
theorem claim_c4_witness :
    exNoCountryRaw.country = none ∧
    ((Violation.mk "country" "Required") ∈ allFieldViolations exNoCountryRaw ∧
      validateAddress exNoCountryRaw = Except.error (allFieldViolations exNoCountryRaw)) :=
  ⟨rfl, claim_c4_amended exNoCountryRaw rfl⟩

/-- C5 counterexample: a submission whose streetAddress, city, state and
country are the single-space string passes validation, though the claim
requires rejection of values empty after trimming; `min(1)` never trims. -/
theorem claim_c5_counterexample :
    validateAddress exWhitespaceRaw
      = Except.ok ⟨" ", " ", " ", "62704", " ", none, "home"⟩ := rfl

/-- The `min(1)` field check accepts a present string exactly when it is not
the empty string. -/
theorem checkRequiredMin1_nil_iff (f m s : String) :
    checkRequiredMin1 f m (some s) = [] ↔ s ≠ "" := by
  constructor
  · intro h he
    subst he
    simp only [checkRequiredMin1] at h
    rw [if_pos (by decide : ("" : String).length < 1)] at h
    exact List.cons_ne_nil _ _ h
  · intro hne
    have hlt : ¬ s.length < 1 := by
      intro hlt
      exact hne ((string_length_eq_zero_iff s).mp (by omega))
    simp [checkRequiredMin1, hlt]

/-- C5 amended: for each of streetAddress, city, state and country, a
present value is rejected exactly when it is the empty string; no trimming
is applied, so whitespace-only values are accepted. -/
theorem claim_c5_amended (s : String) :
    (checkStreetAddress (some s) = [] ↔ s ≠ "") ∧
    (checkCity (some s) = [] ↔ s ≠ "") ∧
    (checkState (some s) = [] ↔ s ≠ "") ∧
    (checkCountry (some s) = [] ↔ s ≠ "") :=
  ⟨checkRequiredMin1_nil_iff _ _ s, checkRequiredMin1_nil_iff _ _ s,
    checkRequiredMin1_nil_iff _ _ s, checkRequiredMin1_nil_iff _ _ s⟩

/-- C6: a submission with addressType absent incurs no addressType
violation and normalizes to `"home"`; a submission with addressType outside
the allowed set is rejected with an addressType violation. -/
theorem claim_c6 (raw : RawSubmission) :
    (raw.addressType = none →
        checkAddressType raw.addressType = [] ∧
        (normalizeAddress raw).addressType = "home") ∧
    (∀ s, raw.addressType = some s → addressTypeValues.contains s = false →
        (Violation.mk "addressType" "Invalid enum value") ∈ allFieldViolations raw ∧
        validateAddress raw = Except.error (allFieldViolations raw)) := by
  constructor
  · intro h
    rw [h]
    exact ⟨rfl, by simp [normalizeAddress, h]⟩
  · intro s hs hcontains
    have hnotmem : s ∉ addressTypeValues := by
      simpa using hcontains
    have hmem : (Violation.mk "addressType" "Invalid enum value")
        ∈ allFieldViolations raw := by
      simp [allFieldViolations, checkAddressType, hs, hnotmem]
    exact ⟨hmem, validateAddress_error raw (List.ne_nil_of_mem hmem)⟩

/-- Witness for C6 at a submission without addressType and one with the
out-of-set addressType `"penthouse"`. -/
theorem claim_c6_witness :
    (checkAddressType exNoTypeRaw.addressType = [] ∧
      (normalizeAddress exNoTypeRaw).addressType = "home") ∧
    ((Violation.mk "addressType" "Invalid enum value") ∈ allFieldViolations exBadTypeRaw ∧
      validateAddress exBadTypeRaw = Except.error (allFieldViolations exBadTypeRaw)) :=
  ⟨(claim_c6 exNoTypeRaw).1 rfl, (claim_c6 exBadTypeRaw).2 "penthouse" rfl (by decide)⟩

/-- A string input shorter than 3 characters short-circuits the suggestions
handler to an empty success response with no outbound call. -/
theorem suggestions_short (s apiKey : String) (resp : AutocompleteResponse)
    (h : s.length < 3) :
    suggestionsHandler (QueryVal.str s) apiKey resp
      = (SuggestionsResult.success [], false) := by
  by_cases he : s = "" <;> simp [suggestionsHandler, he, h]

/-- C7: for every input string of fewer than 3 characters, the suggestion
endpoint returns an empty prediction list as a success response and makes
no call to the external service, whatever the key and upstream state. -/
theorem claim_c7 (s apiKey : String) (resp : AutocompleteResponse)
    (h : s.length < 3) :
    suggestionsHandler (QueryVal.str s) apiKey resp
      = (SuggestionsResult.success [], false) :=
  suggestions_short s apiKey resp h

/-- Witness for C7 at the two-character input `"ab"`. -/
theorem claim_c7_witness :
    ("ab" : String).length < 3 ∧
    suggestionsHandler (QueryVal.str "ab") "key1" exAutoResp
      = (SuggestionsResult.success [], false) :=
  ⟨by decide, claim_c7 "ab" "key1" exAutoResp (by decide)⟩

/-- C8 counterexample: with a key configured and a successful transport, the
provider status `"ZERO_RESULTS"` is an upstream failure (500) for the
details endpoint though it is a success for the suggestions endpoint; the
two endpoints do not mirror each other on empty results. -/
theorem claim_c8_counterexample :
    (detailsHandler "place1" "key1" ⟨true, "ZERO_RESULTS", some []⟩).1
        = DetailsResult.upstreamFailure ∧
    (suggestionsHandler (QueryVal.str "abc") "key1" ⟨true, "ZERO_RESULTS", some []⟩).1
        = SuggestionsResult.success [] :=
  ⟨by decide, by decide⟩

/-- C8 amended: the details endpoint responds service-unavailable (503) with
no key configured, and surfaces the upstream-failure (500) condition exactly
on a non-success transport response or a provider status other than OK; in
particular the empty-result status ZERO_RESULTS, exempted by the suggestions
endpoint, is an upstream failure here. -/
theorem claim_c8_amended (pid apiKey : String) (resp : DetailsResponse)
    (h : apiKey ≠ "") :
    (detailsHandler pid "" resp).1 = DetailsResult.serviceUnavailable ∧
    ((detailsHandler pid apiKey resp).1 = DetailsResult.upstreamFailure ↔
      (resp.ok = false ∨ resp.status ≠ "OK")) := by
  constructor
  · simp [detailsHandler]
  · by_cases hok : resp.ok = false
    · simp [detailsHandler, h, hok]
    · by_cases hst : resp.status = "OK" <;>
        simp [detailsHandler, h, hok, hst]

/-- Witness for the amended C8 at a configured key and a failed transport. -/
theorem claim_c8_witness :
    ("key1" : String) ≠ "" ∧
    ((detailsHandler "place1" "" exBadDetResp).1 = DetailsResult.serviceUnavailable ∧
      ((detailsHandler "place1" "key1" exBadDetResp).1 = DetailsResult.upstreamFailure ↔
        (exBadDetResp.ok = false ∨ exBadDetResp.status ≠ "OK"))) :=
  ⟨by decide, claim_c8_amended "place1" "key1" exBadDetResp (by decide)⟩

/-- The rows produced by a run of creations are as many as the inputs. -/
theorem expectedAddresses_length (c : Nat) (as : List InsertAddress) :
    (expectedAddresses c as).length = as.length := by
  induction as generalizing c with
  | nil => rfl
  | cons a t ih => simp [expectedAddresses, ih]

/-- Every id in the expected rows is at least the starting counter. -/
theorem expectedAddresses_id_ge (c : Nat) (as : List InsertAddress) :
    ∀ a ∈ expectedAddresses c as, c ≤ a.id := by
  induction as generalizing c with
  | nil =>
    intro a ha
    cases ha
  | cons b t ih =>
    intro a ha
    simp only [expectedAddresses] at ha
    rcases List.mem_cons.mp ha with rfl | ha
    · exact Nat.le.refl
    · have := ih (c + 1) a ha
      omega

/-- The ids of the expected rows are strictly increasing. -/
theorem expectedAddresses_pairwise (c : Nat) (as : List InsertAddress) :
    ((expectedAddresses c as).map Address.id).Pairwise (· < ·) := by
  induction as generalizing c with
  | nil => simp [expectedAddresses]
  | cons b t ih =>
    simp only [expectedAddresses, List.map_cons, List.pairwise_cons]
    constructor
    · intro x hx
      obtain ⟨y, hy, rfl⟩ := List.mem_map.mp hx
      have h1 := expectedAddresses_id_ge (c + 1) t y hy
      have h2 : (mkStoredAddress c b).id = c := rfl
      omega
    · exact ih (c + 1)

/-- Running creations against a store whose keys all lie below the counter
appends one row per input, ids counting up from the counter. -/
theorem createMany_state (as : List InsertAddress) (m : AddrMap) (c : Nat)
    (h : ∀ p ∈ m, p.1 < c) :
    createMany ⟨m, c⟩ as
      = ⟨m ++ (expectedAddresses c as).map (fun a => (a.id, a)), c + as.length⟩ := by
  induction as generalizing m c with
  | nil => simp [createMany, expectedAddresses]
  | cons a t ih =>
    have hfresh : ∀ p ∈ m, p.1 ≠ c := fun p hp => Nat.ne_of_lt (h p hp)
    have hstep : createMany ⟨m, c⟩ (a :: t)
        = createMany ⟨m ++ [(c, mkStoredAddress c a)], c + 1⟩ t := by
      simp only [createMany, List.foldl_cons]
      congr 1
      simp [MemStorage.createAddress, mapSet_fresh m c _ hfresh]
    have hlt : ∀ p ∈ m ++ [(c, mkStoredAddress c a)], p.1 < c + 1 := by
      intro p hp
      rcases List.mem_append.mp hp with hp | hp
      · exact Nat.lt_succ_of_lt (h p hp)
      · rcases List.mem_singleton.mp hp with rfl
        exact Nat.lt_succ_self c
    rw [hstep, ih (m ++ [(c, mkStoredAddress c a)]) (c + 1) hlt]
    simp only [expectedAddresses, List.map_cons, List.length_cons, MemStorage.mk.injEq]
    constructor
    · rw [List.append_assoc]
      rfl
    · omega

/-- Projecting the values out of the keyed rows gives back the rows. -/
theorem map_snd_keyed (l : List Address) :
    (l.map (fun a => (a.id, a))).map Prod.snd = l := by
  induction l with
  | nil => rfl
  | cons a t ih => simp [ih]

/-- C9: after any sequence of successful creations on a fresh store,
`getAddresses` returns one record per input in creation order, as many as
the inputs, with ids pairwise strictly increasing (hence distinct). -/
theorem claim_c9 (as : List InsertAddress) :
    (createMany MemStorage.fresh as).getAddresses = expectedAddresses 1 as ∧
    (createMany MemStorage.fresh as).getAddresses.length = as.length ∧
    ((createMany MemStorage.fresh as).getAddresses.map Address.id).Pairwise (· < ·) := by
  have hget : (createMany MemStorage.fresh as).getAddresses = expectedAddresses 1 as := by
    have hs := createMany_state as [] 1 (by intro p hp; cases hp)
    rw [show MemStorage.fresh = (⟨[], 1⟩ : MemStorage) from rfl, hs]
    simp only [MemStorage.getAddresses, List.nil_append]
    exact map_snd_keyed _
  refine ⟨hget, ?_, ?_⟩
  · rw [hget, expectedAddresses_length]
  · rw [hget]
    exact expectedAddresses_pairwise 1 as

/-- C10: a missing, non-string or shorter-than-3 input yields the empty
success response regardless of the configured key, and the
service-unavailable condition arises exactly behind the short-input check,
for a string input of at least 3 characters with no key. -/
theorem claim_c10 (apiKey : String) (resp : AutocompleteResponse) (s t : String)
    (hs : s.length < 3) (ht : 3 ≤ t.length) :
    suggestionsHandler QueryVal.missing apiKey resp = (SuggestionsResult.success [], false) ∧
    suggestionsHandler QueryVal.nonStr apiKey resp = (SuggestionsResult.success [], false) ∧
    suggestionsHandler (QueryVal.str s) apiKey resp = (SuggestionsResult.success [], false) ∧
    suggestionsHandler (QueryVal.str t) "" resp = (SuggestionsResult.serviceUnavailable, false) := by
  refine ⟨rfl, rfl, suggestions_short s apiKey resp hs, ?_⟩
  have hne : t ≠ "" := by
    intro he
    rw [he] at ht
    exact absurd ht (by decide)
  simp [suggestionsHandler, hne, Nat.not_lt.mpr ht]

/-- Witness for C10 with no key configured, at a two-character and a
three-character input. -/
theorem claim_c10_witness :
    (("ab" : String).length < 3 ∧ 3 ≤ ("abc" : String).length) ∧
    (suggestionsHandler QueryVal.missing "" exAutoResp = (SuggestionsResult.success [], false) ∧
      suggestionsHandler QueryVal.nonStr "" exAutoResp = (SuggestionsResult.success [], false) ∧
      suggestionsHandler (QueryVal.str "ab") "" exAutoResp = (SuggestionsResult.success [], false) ∧
      suggestionsHandler (QueryVal.str "abc") "" exAutoResp
        = (SuggestionsResult.serviceUnavailable, false)) :=
  ⟨⟨by decide, by decide⟩, claim_c10 "" exAutoResp "ab" "abc" (by decide) (by decide)⟩

end FormSpec
